import Mathlib

/-!
Shallow embedding of the mcp-leostream repository
(03_mcpserver_agent.py, 03_mcpserver_helper.py, gen_LeoSessionID.py,
kill_LeoSessionID.py) for verification of its specification.

Conventions used throughout:
  * Python dicts whose values matter to the claims are association lists;
    `Option Dict` models an optional dict argument, `none` standing for
    Python `None`.
  * The remote HTTP service is an oracle `HttpRequest → RemoteOutcome`
    supplied as an argument: the functions under verification are pure in
    everything except what they hand to and receive from that oracle.
  * Machine-level details that no claim touches (TLS flags, the 30 second
    timeout value, float sub-second timestamps) are noted in comments at
    the definition that abstracts them.
  * Messages produced by the Python runtime or libraries (str(e) of an
    exception) are modelled as fixed strings derived from the same data
    the runtime derives them from; their exact spelling (and the quote
    characters Python puts around names) is abstracted.
-/

namespace Leostream

/-- Scalar JSON values, enough to populate the dict payloads the claims
mention; structured nesting is never inspected by any claim. -/
inductive JsonVal where
  | null
  | bool (b : Bool)
  | num (n : Int)
  | str (s : String)
deriving Repr, DecidableEq

/-- A Python dict with string keys, as an association list. -/
abbrev Dict := List (String × JsonVal)

/-- One HTTP header entry. -/
abbrev Header := String × String

/-- Python str.lower on the ASCII range (all method strings in play are
ASCII), computed over the character list. -/
def pyLower (s : String) : String := String.mk (s.data.map Char.toLower)

/-- Python str.strip with no argument: remove leading and trailing
whitespace, computed over the character list. -/
def pyStrip (s : String) : String :=
  String.mk (((s.data.dropWhile Char.isWhitespace).reverse.dropWhile Char.isWhitespace).reverse)

/-- Python truthiness of an optional dict: `None` and the empty dict are
falsy, any non-empty dict is truthy. -/
def dictTruthy : Option Dict → Bool
  | none => false
  | some d => !d.isEmpty

/-- Python `a or b` evaluated on two optional dicts (as in
`data or params` in the agent source, line 47). -/
def pyOr (a b : Option Dict) : Option Dict :=
  if dictTruthy a then a else b

/-- Python `headers["User-Agent"] = v` on a dict modelled as a list:
replace the value at an existing key, otherwise append the entry. -/
def setHeader (hs : List Header) (k v : String) : List Header :=
  if hs.any (fun h => h.1 = k) then hs.map (fun h => if h.1 = k then (k, v) else h)
  else hs ++ [(k, v)]

/-- Read a header value by key. -/
def lookupHeader (hs : List Header) (k : String) : Option String :=
  (hs.find? (fun h => h.1 = k)).map (fun h => h.2)

/-- The USER_AGENT constant shared by both servers (agent line 16, helper
line 11). -/
def USER_AGENT : String :=
  "Mozilla/5.0 (Windows NT 10.0; Win64; x64) AppleWebKit/537.36 (KHTML, like Gecko) Chrome/91.0.4472.124 Safari/537.36"

/-- One outbound request exactly as handed to the httpx client call:
target url, lower-cased method, header dict, the `json=` keyword argument
(`none` when absent or None) and the `params=` keyword argument. The
hard-coded `timeout=30.0` and `verify=False` settings carry no per-call
information and are not repeated here. -/
structure HttpRequest where
  url : String
  method : String
  headers : List Header
  jsonBody : Option Dict
  queryParams : Option Dict
deriving Repr, DecidableEq

/-- The remote service's behaviour on one sent request: either an HTTP
response — status code, the text that str(httpx.HTTPStatusError) would
carry for it, the raw `response.text` body, and the outcome of
`response.json()` (`Sum.inl` a parsed value, `Sum.inr` a decode-error
message) — or a transport-level failure (DNS, connection refused,
timeout) with its exception message. -/
inductive RemoteOutcome where
  | response (status : Nat) (statusErrText : String) (bodyText : String)
      (jsonResult : JsonVal ⊕ String)
  | transportError (msg : String)

/-- What make_request returns to its caller: the parsed JSON body on
success, or the Python error dict — `errorResult msg none` models
`{"error": msg}` and `errorResult msg (some body)` models
`{"error": msg, "details": body}`. The function being total in Lean
mirrors that every exception is caught and converted to a return value. -/
inductive ApiResult where
  | success (body : JsonVal)
  | errorResult (error : String) (details : Option String)
deriving Repr, DecidableEq

/-- The methods the agent's make_request routes through the
query-parameter branch (agent line 45). -/
def noBodyMethods : List String := ["get", "delete", "head", "options"]

/-- The verbs for which `getattr(client, method_lower)` yields a httpx
send method; for any other string the getattr lookup fails and the
blanket handler returns an error dict instead. -/
def clientVerbs : List String := ["get", "delete", "head", "options", "post", "put", "patch"]

/-- Message of the AttributeError raised by `getattr(client, m)` for an
unknown attribute (quoting abstracted). -/
def attributeErrorMsg (m : String) : String :=
  "AsyncClient object has no attribute " ++ m

/-- Request construction inside the agent's make_request
(03_mcpserver_agent.py lines 38-54): force the User-Agent header, then
for get/delete/head/options set `params = data or params` and no body,
otherwise set `json = data` and attach `params` only when truthy.
Returns `none` when the method names no client verb, in which case no
request is sent at all. -/
def agentBuildRequest (url method : String) (headers : List Header)
    (data params : Option Dict) : Option HttpRequest :=
  let hs := setHeader headers "User-Agent" USER_AGENT
  let ml := pyLower method
  if ml ∈ clientVerbs then
    if ml ∈ noBodyMethods then
      some { url := url, method := ml, headers := hs, jsonBody := none,
             queryParams := pyOr data params }
    else
      some { url := url, method := ml, headers := hs, jsonBody := data,
             queryParams := if dictTruthy params then params else none }
  else none

/-- The agent's make_request (03_mcpserver_agent.py lines 19-61): build
and send the request, raise_for_status on any non-2xx status (caught as
HTTPStatusError and returned as `{"error": str(e), "details":
e.response.text}`), parse the JSON body, and convert every other
exception — transport failure, JSON decode failure, unknown method — to
`{"error": str(e)}`. -/
def agent_make_request (url method : String) (headers : List Header)
    (data params : Option Dict) (remote : HttpRequest → RemoteOutcome) : ApiResult :=
  match agentBuildRequest url method headers data params with
  | none => .errorResult (attributeErrorMsg (pyLower method)) none
  | some req =>
    match remote req with
    | .response status statusErrText bodyText jsonResult =>
      if 200 ≤ status ∧ status < 300 then
        match jsonResult with
        | .inl v => .success v
        | .inr msg => .errorResult msg none
      else .errorResult statusErrText (some bodyText)
    | .transportError msg => .errorResult msg none

/-- The fixed host-plus-prefix string of run_api (agent line 87). -/
def run_api_host : String := "leostream.domain.org/rest/v1"

/-- The header dict run_api prepares (agent lines 82-85). No
Authorization entry appears in the source and nothing later adds one. -/
def run_api_headers : List Header :=
  [("User-Agent", USER_AGENT), ("Content-Type", "application/json")]

/-- URL construction of run_api (agent line 88):
`f"https://{host}{query}"`. -/
def run_api_url (query : String) : String :=
  "https://" ++ run_api_host ++ query

/-- The request run_api causes make_request to send: data and params are
both the local `None` constants of lines 89-90. -/
def run_api_request (query method : String) : Option HttpRequest :=
  agentBuildRequest (run_api_url query) method run_api_headers none none

/-- run_api (agent lines 63-94): forward the query verbatim to the fixed
host with the prepared headers and return make_request's result. -/
def run_api (query method : String) (remote : HttpRequest → RemoteOutcome) : ApiResult :=
  agent_make_request (run_api_url query) method run_api_headers none none remote

/-- Message of the UnboundLocalError raised when the helper's
make_request evaluates `response.raise_for_status()` with `response`
never assigned (quoting abstracted). -/
def unboundResponseMsg : String :=
  "local variable response referenced before assignment"

/-- Request construction inside the helper's make_request
(03_mcpserver_helper.py lines 33-44): only four explicit branches exist.
`get` sends only the params argument (data is never threaded), `post`
and `put` send data as the JSON body with no params, `delete` sends
neither, and any other method assigns no response at all, modelled as
`none`. -/
def helperBuildRequest (url method : String) (headers : List Header)
    (data params : Option Dict) : Option HttpRequest :=
  let hs := setHeader headers "User-Agent" USER_AGENT
  let ml := pyLower method
  if ml = "get" then
    some { url := url, method := "get", headers := hs, jsonBody := none, queryParams := params }
  else if ml = "post" then
    some { url := url, method := "post", headers := hs, jsonBody := data, queryParams := none }
  else if ml = "put" then
    some { url := url, method := "put", headers := hs, jsonBody := data, queryParams := none }
  else if ml = "delete" then
    some { url := url, method := "delete", headers := hs, jsonBody := none, queryParams := none }
  else none

/-- The helper's make_request (03_mcpserver_helper.py lines 14-48): one
blanket `except Exception` turns every failure — the UnboundLocalError
of an unknown method, a non-2xx HTTPStatusError, a transport error, a
JSON decode error — into `{"error": str(e)}`; unlike the agent it never
attaches the response body text. -/
def helper_make_request (url method : String) (headers : List Header)
    (data params : Option Dict) (remote : HttpRequest → RemoteOutcome) : ApiResult :=
  match helperBuildRequest url method headers data params with
  | none => .errorResult unboundResponseMsg none
  | some req =>
    match remote req with
    | .response status statusErrText _bodyText jsonResult =>
      if 200 ≤ status ∧ status < 300 then
        match jsonResult with
        | .inl v => .success v
        | .inr msg => .errorResult msg none
      else .errorResult statusErrText none
    | .transportError msg => .errorResult msg none

/-- Outcome of one Tool Facade call as seen by the agent runtime: either
a returned string or an uncaught Python exception of the named type
escaping the function. -/
inductive ToolOutcome where
  | returns (value : String)
  | raises (exn : String) (msg : String)
deriving Repr, DecidableEq

/-- The credential-store path of the agent (line 174). -/
def SESSION_FILE : String := "/Projects/api_leostream/session/LeostreamLogin.p"

/-- get_session (03_mcpserver_agent.py lines 165-192). `store` is the
credential store: `some (token, mtime)` when the session file exists
with that pickled token and last-modified time, `none` when it does not,
in which case `open(SESSION_FILE, "rb")` raises FileNotFoundError; the
only except clause catches subprocess.CalledProcessError, which does not
match FileNotFoundError, so the exception escapes to the caller.
Timestamps are whole seconds (os.path.getmtime returns a float; the
sub-second part changes no comparison against the integer 43200 other
than at fractional ages, which no claim distinguishes). -/
def get_session (store : Option (String × Int)) (now : Int) : ToolOutcome :=
  match store with
  | none =>
    .raises "FileNotFoundError"
      ("No such file or directory: " ++ SESSION_FILE)
  | some (session_id, lastMod) =>
    let age := now - lastMod
    let ageDif := age ≥ 43200
    if ¬ ageDif then
      .returns ("Found Valid Session: " ++ session_id ++ " | Age: " ++ toString age ++ " seconds")
    else
      .returns ("Found a Session, but it is not valid (Over 12Hrs Old), please generate another one: "
        ++ session_id ++ " [Kill This Session ID]")

/-- kill_session (03_mcpserver_agent.py lines 194-204). The subprocess
argument list on line 200 references `session_id`, a name defined in no
enclosing scope of the module, so evaluating it raises NameError before
subprocess.run is ever called; the except clause catches only
subprocess.CalledProcessError, which does not match NameError, so every
invocation lets the exception escape to the caller. -/
def kill_session : ToolOutcome :=
  .raises "NameError" "name session_id is not defined"

/-- Stdout of gen_LeoSessionID.py. `responseRepr` is the line written by
`print(response)` (for example `<Response [200]>`); `sid` is
`response_data["sid"]` when that key is present; `pickleErr` is the
message of an exception raised by pickle.dump, if any. When a sid is
present it is pickled to the session file and never printed — no print
statement of the script mentions it; when it is absent the script prints
a failure line and calls `sys.exit()` (lines 16-33). Each print ends its
line with a newline. -/
def gen_script_stdout (responseRepr : String) (sid : Option String)
    (pickleErr : Option String) : String :=
  match sid with
  | some _ =>
    responseRepr ++ "\n" ++ "saving session..\n"
      ++ (match pickleErr with
          | some e => "Error: " ++ e ++ "\n"
          | none => "")
      ++ "Logged into Leostream..\n"
      ++ "AI Systems Leo Session saved, you do not need to auth for another 12 hours!\n"
  | none =>
    responseRepr ++ "\n" ++ "Failed to login! Exiting...\n"

/-- Exit status of gen_LeoSessionID.py on the two login outcomes:
`sys.exit()` with no argument (line 29) exits with status 0, exactly as
the fall-through end of the script does, so both paths exit 0. -/
def gen_script_exit (_sid : Option String) : Nat := 0

/-- The command list of generate_session's subprocess call, as it
appears in the CalledProcessError message (quoting abstracted). -/
def gen_cmd : String := "[python, /Projects/api_leostream/gen_LeoSessionID.py]"

/-- str(subprocess.CalledProcessError) for a command and a nonzero
return code. -/
def calledProcessErrorStr (cmd : String) (returncode : Nat) : String :=
  "Command " ++ cmd ++ " returned non-zero exit status " ++ toString returncode ++ "."

/-- generate_session (03_mcpserver_agent.py lines 152-163), given the
exit status and captured stdout of the gen script: check_returncode
raises CalledProcessError exactly on a nonzero status, which the except
clause formats; otherwise the stripped stdout is returned. -/
def generate_session (exitStatus : Nat) (stdout : String) : String :=
  if exitStatus = 0 then pyStrip stdout
  else "Error generating session ID: " ++ calledProcessErrorStr gen_cmd exitStatus

/-- generate_session composed with the gen script's observable behaviour
on a login response with the given repr and optional sid field, with no
pickle error. -/
def generate_session_run (responseRepr : String) (sid : Option String) : String :=
  generate_session (gen_script_exit sid) (gen_script_stdout responseRepr sid none)

/-- The decoded request_body field of one endpoint record as placed in
the returned dict: `absent` is Python None, `parsed s` records that
json.loads was applied to the stored text s. -/
inductive RequestBodyValue where
  | absent
  | parsed (storedText : String)
deriving Repr, DecidableEq

/-- The request_body decoding in search_endpoint (agent line 121, helper
line 74): `json.loads(request_body) if request_body != "None" else
None`. -/
def decode_request_body (stored : String) : RequestBodyValue :=
  if stored ≠ "None" then .parsed stored else .absent

/-- The request the agent builds for GET with data, for the C5 witness. -/
def c5req : HttpRequest :=
  { url := "u", method := "get", headers := [("User-Agent", USER_AGENT)],
    jsonBody := none, queryParams := some [("a", JsonVal.num 1)] }

/-- The request run_api("/centers", "GET") builds, for the C8 witness. -/
def c8req : HttpRequest :=
  { url := "https://leostream.domain.org/rest/v1/centers", method := "get",
    headers := [("User-Agent", USER_AGENT), ("Content-Type", "application/json")],
    jsonBody := none, queryParams := none }

/-! ## Claim theorems -/

/-- C1: at the concrete call run_api("/centers", "GET") the forwarded
request carries exactly the fixed User-Agent and the Content-Type header —
the full header list is spelled out, and looking up an Authorization key in
it yields nothing: no bearer token is attached and the credential store is
never consulted (the headers are built from constants alone). -/
theorem C1_run_api_sends_no_authorization_header :
    run_api_request "/centers" "GET" =
      some { url := "https://leostream.domain.org/rest/v1/centers", method := "get",
             headers := [("User-Agent", USER_AGENT), ("Content-Type", "application/json")],
             jsonBody := none, queryParams := none } ∧
    lookupHeader [("User-Agent", USER_AGENT), ("Content-Type", "application/json")]
      "Authorization" = none :=
  ⟨by decide, by decide⟩

/-- C2: the Tool Facade does raise to the agent runtime — kill_session
evaluates the undefined name session_id, raising NameError on every
invocation, and its except clause matches only subprocess.CalledProcessError,
so the exception escapes and no value is ever returned. -/
theorem C2_kill_session_raises_to_the_runtime :
    kill_session = ToolOutcome.raises "NameError" "name session_id is not defined" ∧
    ∀ s, kill_session ≠ ToolOutcome.returns s := by
  refine ⟨rfl, fun s h => ?_⟩
  simp [kill_session] at h

/-- C3: with no token persisted (the session file absent) get_session
raises an uncaught FileNotFoundError — the only except clause catches
subprocess.CalledProcessError, which does not match — so it terminates the
caller instead of returning an error result. -/
theorem C3_get_session_raises_when_no_token :
    get_session none 1700000000 =
      ToolOutcome.raises "FileNotFoundError"
        "No such file or directory: /Projects/api_leostream/session/LeostreamLogin.p" ∧
    ∀ s, get_session none 1700000000 ≠ ToolOutcome.returns s := by
  refine ⟨by decide, fun s h => ?_⟩
  simp [get_session] at h

/-- C4 counterexample: a successful login whose extracted session
identifier is "abc123" — generate_session returns the gen script's progress
chatter verbatim, which is not the token. -/
theorem C4_counterexample_chatter_not_token :
    generate_session_run "<Response [200]>" (some "abc123") =
      "<Response [200]>\nsaving session..\nLogged into Leostream..\nAI Systems Leo Session saved, you do not need to auth for another 12 hours!" ∧
    generate_session_run "<Response [200]>" (some "abc123") ≠ "abc123" :=
  ⟨by decide, by decide⟩

/-- C4 amended: on a successful login generate_session returns the stripped
stdout of the gen script — fixed progress text that does not depend on the
token value, since the token is only pickled to the credential store and
never printed; a failed login (response without a sid field) also exits with
status 0 and likewise returns stripped chatter; the formatted error string
arises exactly from a nonzero script exit status. -/
theorem C4_generate_session_returns_script_stdout :
    (∀ r s t, generate_session_run r (some s) = generate_session_run r (some t)) ∧
    (∀ r, generate_session_run r none = pyStrip (r ++ "\n" ++ "Failed to login! Exiting...\n")) ∧
    (∀ n out, n ≠ 0 → generate_session n out =
      "Error generating session ID: " ++ calledProcessErrorStr gen_cmd n) := by
  refine ⟨fun r s t => rfl, fun r => rfl, fun n out h => ?_⟩
  simp [generate_session, h]

/-- Witness for C4: the amended claim applied at a nonzero exit status. -/
theorem C4_generate_session_returns_script_stdout_witness :
    generate_session 1 "x" = "Error generating session ID: " ++ calledProcessErrorStr gen_cmd 1 :=
  C4_generate_session_returns_script_stdout.2.2 1 "x" (by decide)

/-- C5 counterexample: the helper's make_request — one of the sources the
claim cites — with method "GET" and a supplied non-empty data dict builds a
request in which that data appears nowhere: neither as query parameters nor
as a body. -/
theorem C5_counterexample_helper_get_drops_data :
    (helperBuildRequest "https://h/x" "GET" [] (some [("a", JsonVal.num 1)]) none).map
        (fun r => (r.jsonBody, r.queryParams)) =
      some ((none : Option Dict), (none : Option Dict)) ∧
    some [("a", JsonVal.num 1)] ≠ (none : Option Dict) :=
  ⟨by decide, by decide⟩

/-- C5 amended: in the agent's make_request the dispatch holds as claimed,
with supplied data read under Python truthiness — for get, delete, head and
options a non-empty data dict is sent as the query parameters and never as a
body, and for post, put and patch data is sent as the JSON body with a
non-empty params dict still attached. In the helper's make_request, GET
sends only the separately supplied params and ignores data entirely,
DELETE sends neither data nor params, and HEAD and OPTIONS build no
request at all. -/
theorem C5_method_dispatch :
    (∀ url method headers d params req, pyLower method ∈ noBodyMethods →
      agentBuildRequest url method headers (some d) params = some req →
      req.jsonBody = none ∧ (d ≠ [] → req.queryParams = some d)) ∧
    (∀ url method headers data p req,
      pyLower method ∈ (["post", "put", "patch"] : List String) →
      agentBuildRequest url method headers data (some p) = some req →
      req.jsonBody = data ∧ (p ≠ [] → req.queryParams = some p)) ∧
    (∀ url headers data params req,
      helperBuildRequest url "GET" headers data params = some req →
      req.jsonBody = none ∧ req.queryParams = params) ∧
    (∀ url headers data params,
      (helperBuildRequest url "DELETE" headers data params).map
        (fun r => (r.jsonBody, r.queryParams)) =
        some ((none : Option Dict), (none : Option Dict))) ∧
    (∀ url headers data params,
      helperBuildRequest url "HEAD" headers data params = none ∧
      helperBuildRequest url "OPTIONS" headers data params = none) := by
  refine ⟨?_, ?_, ?_, ?_, ?_⟩
  · intro url method headers d params req hm hreq
    have h1 : pyLower method ∈ clientVerbs := by
      simp only [noBodyMethods, List.mem_cons, List.not_mem_nil, or_false] at hm
      simp only [clientVerbs, List.mem_cons, List.not_mem_nil, or_false]
      tauto
    simp only [agentBuildRequest] at hreq
    rw [if_pos h1, if_pos hm] at hreq
    have := Option.some_inj.mp hreq
    subst this
    refine ⟨rfl, fun hd => ?_⟩
    simp [pyOr, dictTruthy, List.isEmpty_eq_true, hd]
  · intro url method headers data p req hm hreq
    have h1 : pyLower method ∈ clientVerbs := by
      simp only [List.mem_cons, List.not_mem_nil, or_false] at hm
      simp only [clientVerbs, List.mem_cons, List.not_mem_nil, or_false]
      tauto
    have h2 : pyLower method ∉ noBodyMethods := by
      simp only [List.mem_cons, List.not_mem_nil, or_false] at hm
      simp only [noBodyMethods, List.mem_cons, List.not_mem_nil, or_false, not_or]
      rcases hm with h | h | h <;> simp [h]
    simp only [agentBuildRequest] at hreq
    rw [if_pos h1, if_neg h2] at hreq
    have := Option.some_inj.mp hreq
    subst this
    refine ⟨rfl, fun hp => ?_⟩
    simp [dictTruthy, List.isEmpty_eq_true, hp]
  · intro url headers data params req hreq
    have hg : pyLower "GET" = "get" := by decide
    simp only [helperBuildRequest, hg, if_pos] at hreq
    have := Option.some_inj.mp hreq
    subst this
    exact ⟨rfl, rfl⟩
  · intro url headers data params
    have hd : pyLower "DELETE" = "delete" := by decide
    simp [helperBuildRequest, hd]
  · intro url headers data params
    have hh : pyLower "HEAD" = "head" := by decide
    have ho : pyLower "OPTIONS" = "options" := by decide
    exact ⟨by simp [helperBuildRequest, hh], by simp [helperBuildRequest, ho]⟩

/-- Witness for C5: the amended claim applied to the agent's GET branch
with a non-empty data dict, to the helper's DELETE branch with both data
and params supplied, and to the helper's HEAD and OPTIONS methods. -/
theorem C5_method_dispatch_witness :
    (c5req.jsonBody = none ∧
      ([("a", JsonVal.num 1)] ≠ ([] : Dict) → c5req.queryParams = some [("a", JsonVal.num 1)])) ∧
    (helperBuildRequest "u" "DELETE" [] (some [("a", JsonVal.num 1)])
        (some [("b", JsonVal.num 2)])).map (fun r => (r.jsonBody, r.queryParams)) =
      some ((none : Option Dict), (none : Option Dict)) ∧
    helperBuildRequest "u" "HEAD" [] none none = none ∧
    helperBuildRequest "u" "OPTIONS" [] none none = none :=
  ⟨C5_method_dispatch.1 "u" "GET" [] [("a", JsonVal.num 1)] none c5req (by decide) (by decide),
   C5_method_dispatch.2.2.2.1 "u" [] (some [("a", JsonVal.num 1)]) (some [("b", JsonVal.num 2)]),
   (C5_method_dispatch.2.2.2.2 "u" [] none none).1,
   (C5_method_dispatch.2.2.2.2 "u" [] none none).2⟩

/-- C6 counterexample: the helper forwarder — one of the sources the claim
cites — on a 404 response whose raw body text is "missing" returns a result
carrying only the exception message: the body text is dropped, not attached
as details. -/
theorem C6_counterexample_helper_drops_body_text :
    helper_make_request "https://h/x" "GET" [] none none
        (fun _ => RemoteOutcome.response 404 "Client error 404 Not Found" "missing"
          (Sum.inl JsonVal.null)) =
      ApiResult.errorResult "Client error 404 Not Found" none ∧
    (none : Option String) ≠ some "missing" :=
  ⟨by decide, by decide⟩

/-- C6 amended: in the agent's make_request a non-2xx status yields an
error result carrying both the status-derived message and the raw response
body text, and a transport failure yields one carrying only the exception
message — always returned as data, the functions being total. In the
helper's make_request a non-2xx status instead yields only the exception
message, and indeed every failure the helper can return — non-2xx
status, transport error, JSON decode error, unbound method — carries
only the exception message, never the response body text. -/
theorem C6_error_normalization :
    (∀ url method headers data params remote req status m body js,
      agentBuildRequest url method headers data params = some req →
      remote req = RemoteOutcome.response status m body js →
      ¬ (200 ≤ status ∧ status < 300) →
      agent_make_request url method headers data params remote =
        ApiResult.errorResult m (some body)) ∧
    (∀ url method headers data params remote req m,
      agentBuildRequest url method headers data params = some req →
      remote req = RemoteOutcome.transportError m →
      agent_make_request url method headers data params remote =
        ApiResult.errorResult m none) ∧
    (∀ url method headers data params remote req status m body js,
      helperBuildRequest url method headers data params = some req →
      remote req = RemoteOutcome.response status m body js →
      ¬ (200 ≤ status ∧ status < 300) →
      helper_make_request url method headers data params remote =
        ApiResult.errorResult m none) ∧
    (∀ url method headers data params remote e d,
      helper_make_request url method headers data params remote =
        ApiResult.errorResult e d →
      d = none) := by
  refine ⟨?_, ?_, ?_, ?_⟩
  · intro url method headers data params remote req status m body js hb hr hs
    simp [agent_make_request, hb, hr, hs]
  · intro url method headers data params remote req m hb hr
    simp [agent_make_request, hb, hr]
  · intro url method headers data params remote req status m body js hb hr hs
    simp [helper_make_request, hb, hr, hs]
  · intro url method headers data params remote e d h
    rcases hb : helperBuildRequest url method headers data params with _ | req
    · simp only [helper_make_request, hb] at h
      injection h with h1 h2
      exact h2.symm
    · simp only [helper_make_request, hb] at h
      rcases hr : remote req with ⟨status, em, body, js⟩ | m
      · rw [hr] at h
        by_cases hs : 200 ≤ status ∧ status < 300
        · rcases js with v | m
          · simp only [if_pos hs] at h
            exact ApiResult.noConfusion h
          · simp only [if_pos hs] at h
            injection h with h1 h2
            exact h2.symm
        · simp only [if_neg hs] at h
          injection h with h1 h2
          exact h2.symm
      · rw [hr] at h
        injection h with h1 h2
        exact h2.symm

/-- Witness for C6: the amended claim applied to the agent on a concrete
500 response with body "boom", and to the helper on a concrete transport
failure, whose returned error result indeed carries no details. -/
theorem C6_error_normalization_witness :
    agent_make_request "u" "GET" [] none none
        (fun _ => RemoteOutcome.response 500 "servererr" "boom" (Sum.inl JsonVal.null)) =
      ApiResult.errorResult "servererr" (some "boom") ∧
    (none : Option String) = none :=
  ⟨C6_error_normalization.1 "u" "GET" [] none none _
    { url := "u", method := "get", headers := [("User-Agent", USER_AGENT)],
      jsonBody := none, queryParams := none }
    500 "servererr" "boom" (Sum.inl JsonVal.null) (by decide) rfl (by decide),
   C6_error_normalization.2.2.2 "u" "GET" [] none none
    (fun _ => RemoteOutcome.transportError "t") "t" none (by decide)⟩

/-- C7: get_session classifies a persisted token by its age (now minus the
store file's last-modified time): strictly below 43200 seconds yields the
valid-session message, at or above 43200 seconds — the boundary value
included — yields the stale-session message. -/
theorem C7_get_session_age_classification (tok : String) (lastMod now : Int) :
    (now - lastMod < 43200 →
      get_session (some (tok, lastMod)) now =
        ToolOutcome.returns
          ("Found Valid Session: " ++ tok ++ " | Age: " ++ toString (now - lastMod) ++ " seconds")) ∧
    (43200 ≤ now - lastMod →
      get_session (some (tok, lastMod)) now =
        ToolOutcome.returns
          ("Found a Session, but it is not valid (Over 12Hrs Old), please generate another one: "
            ++ tok ++ " [Kill This Session ID]")) := by
  constructor
  · intro h
    simp only [get_session]
    rw [if_pos (not_le.mpr h)]
  · intro h
    simp only [get_session]
    rw [if_neg (not_not_intro h)]

/-- Witness for C7: concrete instances on both sides of the boundary,
including the boundary age 43200 itself landing in the stale message. -/
theorem C7_get_session_age_classification_witness :
    get_session (some ("tok", 0)) 43199 =
      ToolOutcome.returns
        ("Found Valid Session: " ++ "tok" ++ " | Age: " ++ toString ((43199 : Int) - 0) ++ " seconds") ∧
    get_session (some ("tok", 0)) 43200 =
      ToolOutcome.returns
        ("Found a Session, but it is not valid (Over 12Hrs Old), please generate another one: "
          ++ "tok" ++ " [Kill This Session ID]") :=
  ⟨(C7_get_session_age_classification "tok" 0 43199).1 (by decide),
   (C7_get_session_age_classification "tok" 0 43200).2 (by decide)⟩

/-- C8: run_api builds its target URL as exactly the fixed
host-plus-prefix string concatenated with the verbatim query; any request
it causes to be sent goes to that URL with no JSON body and no query
parameters, and for every method the client can send such a request is
indeed built. -/
theorem C8_run_api_url_and_no_payload (query method : String) :
    run_api_url query = "https://leostream.domain.org/rest/v1" ++ query ∧
    (∀ req, run_api_request query method = some req →
      req.url = "https://leostream.domain.org/rest/v1" ++ query ∧
      req.jsonBody = none ∧ req.queryParams = none) ∧
    (pyLower method ∈ clientVerbs → ∃ req, run_api_request query method = some req) := by
  have hu : run_api_url query = "https://leostream.domain.org/rest/v1" ++ query := by
    have h1 : ("https://" : String) ++ run_api_host = "https://leostream.domain.org/rest/v1" := by decide
    rw [run_api_url, h1]
  refine ⟨hu, ?_, ?_⟩
  · intro req h
    simp only [run_api_request, agentBuildRequest] at h
    by_cases h1 : pyLower method ∈ clientVerbs
    · by_cases h2 : pyLower method ∈ noBodyMethods
      · rw [if_pos h1, if_pos h2] at h
        have := Option.some_inj.mp h
        subst this
        exact ⟨hu, rfl, rfl⟩
      · rw [if_pos h1, if_neg h2] at h
        have := Option.some_inj.mp h
        subst this
        exact ⟨hu, rfl, rfl⟩
    · rw [if_neg h1] at h
      exact absurd h (by simp)
  · intro h1
    simp only [run_api_request, agentBuildRequest]
    by_cases h2 : pyLower method ∈ noBodyMethods
    · exact ⟨_, by rw [if_pos h1, if_pos h2]⟩
    · exact ⟨_, by rw [if_pos h1, if_neg h2]⟩

/-- Witness for C8 at query "/centers" and method "GET". -/
theorem C8_run_api_url_and_no_payload_witness :
    (c8req.url = "https://leostream.domain.org/rest/v1" ++ "/centers" ∧
      c8req.jsonBody = none ∧ c8req.queryParams = none) ∧
    ∃ req, run_api_request "/centers" "GET" = some req :=
  ⟨(C8_run_api_url_and_no_payload "/centers" "GET").2.1 c8req (by decide),
   (C8_run_api_url_and_no_payload "/centers" "GET").2.2 (by decide)⟩

/-- C9: a stored request_body that is exactly the three-character text None
decodes to the absent value — which no json.loads image, in particular that
of the string None, equals — while every other stored text is decoded by
json.loads. -/
theorem C9_request_body_none_decoding (s : String) :
    decode_request_body "None" = RequestBodyValue.absent ∧
    (∀ t, RequestBodyValue.absent ≠ RequestBodyValue.parsed t) ∧
    (s ≠ "None" → decode_request_body s = RequestBodyValue.parsed s) := by
  refine ⟨by decide, fun t h => RequestBodyValue.noConfusion h, fun h => ?_⟩
  simp [decode_request_body, h]

/-- Witness for C9 at the stored text for an empty JSON array. -/
theorem C9_request_body_none_decoding_witness :
    decode_request_body "[]" = RequestBodyValue.parsed "[]" :=
  (C9_request_body_none_decoding "[]").2.2 (by decide)

/-- C10: for every method whose lowercase form is none of get, post, put,
delete, the helper's make_request returns the error dict arising from the
unbound response reference — the result does not depend on the remote
service at all, so no request is sent — and it never raises. -/
theorem C10_helper_unknown_method (url method : String) (headers : List Header)
    (data params : Option Dict) (remote : HttpRequest → RemoteOutcome)
    (h : pyLower method ∉ (["get", "post", "put", "delete"] : List String)) :
    helper_make_request url method headers data params remote =
      ApiResult.errorResult unboundResponseMsg none := by
  simp only [List.mem_cons, List.not_mem_nil, or_false, not_or] at h
  obtain ⟨h1, h2, h3, h4⟩ := h
  simp [helper_make_request, helperBuildRequest, h1, h2, h3, h4]

/-- Witness for C10 at method "HEAD". -/
theorem C10_helper_unknown_method_witness :
    helper_make_request "u" "HEAD" [] none none (fun _ => RemoteOutcome.transportError "x") =
      ApiResult.errorResult unboundResponseMsg none :=
  C10_helper_unknown_method "u" "HEAD" [] none none
    (fun _ => RemoteOutcome.transportError "x") (by decide)

end Leostream
